import Mathlib

/-!
Verification of the ctrld control-plane server (control server handlers).

The Go source registers one HTTP handler per control operation: client
listing, readiness, reload, deactivation, identity, interface, log view and
log ship. Each handler is shallowly embedded here as a pure function of the
environment it observes (daemon state, signal outcomes, request body), and
the returned HTTP status (plus the relevant parts of the response body and
of the mutated state) is the result of the function.
-/

namespace Ctrld

/-! ### Deactivation handler (`deactivationPath`) -/

/-- Modelled from the spec: the reserved "unset" sentinel for the
deactivation PIN. The spec requires a `DeactivationState` whose PIN value
that may equal a reserved unset sentinel, one that must never equal any
PIN an operator would plausibly submit; the declaration of the sentinel is
not among
the provided source files, so it is modelled as a fixed distinguished
integer value distinct from operator PINs such as 1234 or 9999. -/
def defaultDeactivationPin : Int := -1

/-- Modelled from the spec: "If the cached PIN equals the unset sentinel,
allow unconditionally (no PIN configured)". The helper `deactivationPinNotSet`
is called by the handler but declared outside the provided source files. -/
def deactivationPinNotSet (pin : Int) : Bool :=
  pin == defaultDeactivationPin

/-- The best-effort remote refresh step of the deactivation handler.
`fetch` models the result of `controld.FetchResolverConfig`:
`none` when the call fails (`rc == nil`, the cached value is kept),
`some none` when it succeeds with no PIN configured
(`rc.DeactivationPin == nil`, the sentinel is stored), and
`some (some p)` when it succeeds with PIN `p` (`p` is stored). -/
def refreshedPin (fetch : Option (Option Int)) (cached : Int) : Int :=
  match fetch with
  | none => cached
  | some none => defaultDeactivationPin
  | some (some p) => p

/-- The deactivation handler. `cdUID` is the configured device identifier,
`fetch` the remote refresh outcome, `cached` the PIN cached in
`cdDeactivationPin` before the request, and `body` the decoded request body
(`none` for a malformed/undecodable body, `some p` for a submitted PIN `p`).
Returns the HTTP status code written. -/
def deactivationHandler (cdUID : String) (fetch : Option (Option Int))
    (cached : Int) (body : Option Int) : Nat :=
  if cdUID = "" then 200
  else
    let pin := refreshedPin fetch cached
    if deactivationPinNotSet pin then 200
    else
      match body with
      | none => 412
      | some p =>
        if p = pin then 200
        else if p = defaultDeactivationPin then 400
        else 403

/-! ### Reload handler (`reloadPath`) -/

/-- A listener configuration entry: the `IP` and `Port` fields of
`ctrld.ListenerConfig` that the reload handler snapshots and compares. -/
structure ListenerConfig where
  ip : String
  port : Int
deriving DecidableEq, Repr

/-- The listener map `p.cfg.Listener` of the daemon, keyed by listener name.
Go maps have unique keys; theorems that need this take a `Nodup`
hypothesis on the keys. -/
abbrev ListenerMap := List (String × ListenerConfig)

/-- Go map lookup on the association-list model. -/
def lookupL (k : String) : ListenerMap → Option ListenerConfig
  | [] => none
  | (k', v) :: rest => if k = k' then some v else lookupL k rest

/-- The snapshot step of the reload handler: copy the `IP` and `Port` of
every entry into a fresh map (`listeners[k] = &ctrld.ListenerConfig{IP: v.IP,
Port: v.Port}`). -/
def snapshotListeners (m : ListenerMap) : ListenerMap :=
  m.map (fun kv => (kv.1, { ip := kv.2.ip, port := kv.2.port }))

/-- The listener verify loop: iterate over the live (post-reload) listener
map; report a change when a live entry is absent from the snapshot
(`l == nil`) or differs from it in IP or port. -/
def listenerChanged (snapshot live : ListenerMap) : Bool :=
  live.any (fun kv =>
    match lookupL kv.1 snapshot with
    | none => true
    | some l => l.ip != kv.2.ip || l.port != kv.2.port)

/-- The reload handler. `preListener` and `oldSvc` are the listener map and
service configuration read under the lock before signalling; `signalErr`
is the outcome of `p.sendReloadSignal()` (`some e` = failure with message
`e`); `waitDone` is whether `p.reloadDoneCh` fired within the 5-second
bound; `postListener` and `newSvc` are the live state read under the lock
after the wait. The service configuration is an opaque blob compared by
deep structural equality (`reflect.DeepEqual`), modelled by decidable
equality on an arbitrary type `α`. Returns the HTTP status and the error
message body, if any. -/
def reloadHandler {α : Type} [DecidableEq α]
    (preListener : ListenerMap) (oldSvc : α)
    (signalErr : Option String) (waitDone : Bool)
    (postListener : ListenerMap) (newSvc : α) : Nat × Option String :=
  let listeners := snapshotListeners preListener
  match signalErr with
  | some e => (500, some e)
  | none =>
    if waitDone then
      if listenerChanged listeners postListener then (201, none)
      else if oldSvc = newSvc then (200, none)
      else (201, none)
    else (500, some "timeout waiting for ctrld reload")

/-! ### Readiness handler (`startedPath`) -/

/-- The readiness handler: a `select` racing the `p.onStartedDone` signal
against `time.After(10 * time.Second)`. `signalAt` is the time (in
seconds after the request) at which the startup-completion signal fires,
`none` if it never fires. Returns the HTTP status and the time at which
the handler returns. -/
def startedHandler (signalAt : Option Nat) : Nat × Nat :=
  match signalAt with
  | some t => if t < 10 then (200, t) else (408, 10)
  | none => (408, 10)

/-- The wait step of the reload handler viewed temporally: a `select` racing
`p.reloadDoneCh` against `time.After(5 * time.Second)`. `signalAt` is the
time at which the reload-completion signal fires (`none` if never).
Returns whether the wait succeeded and the time at which it returns. -/
def reloadWait (signalAt : Option Nat) : Bool × Nat :=
  match signalAt with
  | some t => if t < 5 then (true, t) else (false, 5)
  | none => (false, 5)

/-! ### Interface handler (`ifacePath`) -/

/-- The interface handler. When not interactive it performs a bare receive
`<-p.csSetDnsDone` with no timer: `signalArrives` says whether that
DNS-binding-complete signal ever fires, and when it does not the handler
never returns, modelled by `none`. Otherwise it returns the status and,
on success, the bound interface name as body. -/
def ifaceHandler (interactive signalArrives setDnsOk : Bool)
    (iface : String) : Option (Nat × Option String) :=
  if !interactive then
    if signalArrives then
      if setDnsOk then some (200, some iface) else some (400, none)
    else none
  else some (400, none)

/-! ### Client listing handler (`listClientsPath`) -/

/-- A client record as used by the listing handler: in the spec, a
`ClientRecord` is "IP address, MAC address, hostname, optional query
count, flag indicating whether query count should be populated". The IP
(`netip.Addr`, totally ordered by `Less`) is modelled as a natural
number. -/
structure Client where
  ip : Nat
  mac : String
  hostname : String
  queryCount : Int
  includeQueryCount : Bool
deriving DecidableEq, Repr

/-- The sort order of the listing handler: `clients[i].IP.Less(clients[j].IP)`
sorts ascending by IP. -/
def ipLE (a b : Client) : Prop := a.ip ≤ b.ip

instance : DecidableRel ipLE := fun a b => Nat.decLe a.ip b.ip

instance : IsTotal Client ipLE := ⟨fun a b => Nat.le_total a.ip b.ip⟩

instance : IsTrans Client ipLE := ⟨fun _ _ _ h h' => Nat.le_trans h h'⟩

/-- The `sort.Slice` call of the listing handler: produce the clients in
ascending IP order. -/
def sortClients (cs : List Client) : List Client :=
  List.insertionSort ipLE cs

/-- The per-client metrics enrichment of the listing handler. `reg` models
the metrics registry keyed by (IP, MAC, hostname): `none` when the counter
lookup (`GetMetricWithLabelValues` or `m.Write`) fails, in which case only
the query count is left untouched; the handler sets `IncludeQueryCount`
before the lookup, so it is set either way. -/
def enrichClient (reg : Nat → String → String → Option Int)
    (c : Client) : Client :=
  let c := { c with includeQueryCount := true }
  match reg c.ip c.mac c.hostname with
  | none => c
  | some q => { c with queryCount := q }

/-- The client listing handler: sort the client table ascending by IP and,
when the global `p.metricsQueryStats` flag is enabled, enrich every client
from the metrics registry. Returns the encoded response array. -/
def listClientsHandler (metricsQueryStats : Bool)
    (reg : Nat → String → String → Option Int)
    (clients : List Client) : List Client :=
  let sorted := sortClients clients
  if metricsQueryStats then sorted.map (enrichClient reg) else sorted

/-! ### Log view and log ship handlers (`viewLogsPath`, `sendLogsPath`) -/

/-- The log view handler. `read` models `p.logContent()`: `Except.error e`
for a read failure with message `e`, `Except.ok d` for content `d`.
Returns the HTTP status and the response body (the error message on
failure, the log text on success). -/
def viewLogsHandler (read : Except String String) : Nat × Option String :=
  match read with
  | .error e => (400, some e)
  | .ok d => if d.isEmpty then (301, none) else (200, some d)

/-- The log ship handler. `now` is the request time and `lastSent` the
`p.internalLogSent` throttle timestamp, both in seconds; `interval` is the
`logSentInterval` throttle window; `read` models `p.logContent()`; and
`sendErr` the outcome of `controld.SendLogs` (`some e` = transmission
failure with message `e`). Returns the HTTP status, the error message
carried in the response body (if any), and the updated throttle
timestamp: the code runs `p.internalLogSent = time.Now()` after the
transmission attempt whether or not it succeeded, and returns early (with
the timestamp untouched) on the throttled, read-error and empty paths. -/
def sendLogsHandler (now lastSent interval : Nat)
    (read : Except String String) (sendErr : Option String) :
    Nat × Option String × Nat :=
  if now - lastSent < interval then (503, none, lastSent)
  else
    match read with
    | .error e => (400, some e, lastSent)
    | .ok d =>
      if d.isEmpty then (301, none, lastSent)
      else
        match sendErr with
        | some e => (500, some e, now)
        | none => (200, none, now)

/-! ### Helper lemmas -/

/-- Copying the IP and port of every entry reproduces the listener map. -/
theorem snapshotListeners_eq (m : ListenerMap) : snapshotListeners m = m := by
  induction m with
  | nil => rfl
  | cons kv rest ih =>
    simp [snapshotListeners] at ih ⊢

/-- On a map with distinct keys, lookup finds each member. -/
theorem lookupL_eq_of_mem {m : ListenerMap} {k : String} {v : ListenerConfig}
    (hkeys : (m.map Prod.fst).Nodup) (hm : (k, v) ∈ m) :
    lookupL k m = some v := by
  induction m with
  | nil => cases hm
  | cons kv rest ih =>
    rcases List.mem_cons.mp hm with h | h
    · cases h
      simp [lookupL]
    · have hk : k ≠ kv.1 := by
        intro hkk
        have : kv.1 ∈ rest.map Prod.fst := List.mem_map.mpr ⟨(k, v), h, hkk⟩
        exact (List.nodup_cons.mp hkeys).1 this
      have := ih (List.nodup_cons.mp hkeys).2 h
      cases kv with
      | mk k' v' => simpa [lookupL, hk] using this

/-- The verify loop reports no change when every live entry is found
unchanged in the snapshot. -/
theorem listenerChanged_eq_false {snap live : ListenerMap}
    (h : ∀ k v, (k, v) ∈ live → lookupL k snap = some v) :
    listenerChanged snap live = false := by
  simp only [listenerChanged, List.any_eq_false]
  intro kv hkv
  rw [h kv.1 kv.2 hkv]
  simp

/-! ### Claim theorems -/

/-- C1: for every deactivation request, if the device identifier is
unconfigured (empty) the handler returns 200 regardless of the request
body; otherwise, if the cached PIN equals the "unset" sentinel after the
best-effort remote refresh, it returns 200; otherwise a malformed or
undecodable body yields 412, a submitted PIN equal to the cached PIN
yields 200, a submitted PIN equal to the "unset" sentinel yields 400, and
any other submitted PIN yields 403. -/
theorem deactivation_status_spec (cdUID : String) (fetch : Option (Option Int))
    (cached : Int) (body : Option Int) :
    (cdUID = "" → deactivationHandler cdUID fetch cached body = 200)
    ∧ (cdUID ≠ "" → refreshedPin fetch cached = defaultDeactivationPin →
        deactivationHandler cdUID fetch cached body = 200)
    ∧ (cdUID ≠ "" → refreshedPin fetch cached ≠ defaultDeactivationPin →
        (body = none → deactivationHandler cdUID fetch cached body = 412)
        ∧ ∀ p, body = some p →
            (p = refreshedPin fetch cached →
              deactivationHandler cdUID fetch cached body = 200)
            ∧ (p = defaultDeactivationPin →
              deactivationHandler cdUID fetch cached body = 400)
            ∧ (p ≠ refreshedPin fetch cached → p ≠ defaultDeactivationPin →
              deactivationHandler cdUID fetch cached body = 403)) := by
  refine ⟨fun h => by simp [deactivationHandler, h], ?_, ?_⟩
  · intro h hpin
    simp [deactivationHandler, h, deactivationPinNotSet, hpin, beq_iff_eq]
  · intro h hpin
    constructor
    · intro hb
      simp [deactivationHandler, h, deactivationPinNotSet, hpin, beq_iff_eq,
        hb]
    · intro p hb
      refine ⟨?_, ?_, ?_⟩
      · intro hp
        simp [deactivationHandler, h, deactivationPinNotSet, hpin, beq_iff_eq,
          hb, hp]
      · intro hp
        have hne : defaultDeactivationPin ≠ refreshedPin fetch cached :=
          Ne.symm hpin
        simp [deactivationHandler, h, deactivationPinNotSet, hpin, beq_iff_eq,
          hb, hp, hne]
      · intro hp hps
        simp [deactivationHandler, h, deactivationPinNotSet, hpin, beq_iff_eq,
          hb, hp, hps]

/-- C1 witness: with device identifier "uid", a failed refresh keeping
cached PIN 1234, and submitted PIN 9999, the handler returns 403. -/
theorem deactivation_status_spec_witness :
    deactivationHandler "uid" none 1234 (some 9999) = 403 :=
  (((deactivation_status_spec "uid" none 1234 (some 9999)).2.2 (by decide)
      (by decide)).2 9999 rfl).2.2 (by decide) (by decide)

/-- C2 counterexample: a listener present in the pre-reload snapshot but
missing from the live map is not detected by the verify loop, which
iterates over the live map only. With the completion signal arrived and
the service configuration unchanged, the handler returns 200, not the 201
the claim requires for a snapshot entry missing from the live map. -/
theorem reload_snapshot_only_listener_cex :
    reloadHandler (α := Nat) [("dns0", ⟨"127.0.0.1", 53⟩)] 0 none true [] 0
      = (200, none)
    ∧ ((200, none) : Nat × Option String) ≠ (201, none) := by
  constructor <;> decide

/-- C2 (amended): for every reload request whose completion signal arrives
within the bound, if any entry of the live listener map is missing from
the pre-reload snapshot, or any listener present in both differs in IP or
port, the handler returns 201 ("changed"), even when the service
configuration is unchanged. (The verify loop iterates over the live map,
so a snapshot entry missing from the live map is not itself detected.) -/
theorem reload_changed_of_live_listener_mismatch {α : Type} [DecidableEq α]
    (pre post : ListenerMap) (oldSvc newSvc : α) (k : String)
    (v : ListenerConfig) (hmem : (k, v) ∈ post)
    (hdiff : lookupL k (snapshotListeners pre) = none
      ∨ ∃ l, lookupL k (snapshotListeners pre) = some l
          ∧ (l.ip ≠ v.ip ∨ l.port ≠ v.port)) :
    reloadHandler pre oldSvc none true post newSvc = (201, none) := by
  have hch : listenerChanged (snapshotListeners pre) post = true := by
    simp only [listenerChanged, List.any_eq_true]
    refine ⟨(k, v), hmem, ?_⟩
    rcases hdiff with h | ⟨l, hl, hne⟩
    · simp [h]
    · rcases hne with hne | hne <;> simp [hl, bne_iff_ne, hne]
  simp [reloadHandler, hch]

/-- C2 (amended) witness: a listener live but absent from the snapshot,
with service configuration unchanged, yields 201. -/
theorem reload_changed_of_live_listener_mismatch_witness :
    reloadHandler (α := Nat) [] 0 none true [("dns0", ⟨"127.0.0.1", 53⟩)] 0
      = (201, none) :=
  reload_changed_of_live_listener_mismatch [] [("dns0", ⟨"127.0.0.1", 53⟩)]
    0 0 "dns0" ⟨"127.0.0.1", 53⟩ (by decide) (Or.inl rfl)

/-- C3: for every reload request whose completion signal arrives within
the bound, if the live listener map agrees with the pre-reload snapshot on
every lookup (no entry missing in either direction and every common entry
equal in IP and port) and the live service configuration is structurally
equal to its snapshot, the handler returns 200 ("unchanged"). -/
theorem reload_unchanged_of_equal_state {α : Type} [DecidableEq α]
    (pre post : ListenerMap) (oldSvc newSvc : α)
    (hkeys : (post.map Prod.fst).Nodup)
    (hmap : ∀ k, lookupL k post = lookupL k pre)
    (hsvc : oldSvc = newSvc) :
    reloadHandler pre oldSvc none true post newSvc = (200, none) := by
  have hch : listenerChanged (snapshotListeners pre) post = false := by
    rw [snapshotListeners_eq]
    apply listenerChanged_eq_false
    intro k v hm
    rw [← hmap k]
    exact lookupL_eq_of_mem hkeys hm
  simp [reloadHandler, hch, hsvc]

/-- C3 witness: identical listener maps and equal service configuration
yield 200. -/
theorem reload_unchanged_of_equal_state_witness :
    reloadHandler (α := Nat) [("dns0", ⟨"127.0.0.1", 53⟩)] 7 none true
      [("dns0", ⟨"127.0.0.1", 53⟩)] 7 = (200, none) :=
  reload_unchanged_of_equal_state [("dns0", ⟨"127.0.0.1", 53⟩)]
    [("dns0", ⟨"127.0.0.1", 53⟩)] 7 7 (by decide) (fun _ => rfl) rfl

/-- C4: for every reload request whose completion signal arrives within
the bound and whose live listener map equals the pre-reload snapshot, a
structurally unequal service configuration makes the handler return 201
("changed"). -/
theorem reload_changed_of_service_diff {α : Type} [DecidableEq α]
    (pre : ListenerMap) (oldSvc newSvc : α)
    (hkeys : (pre.map Prod.fst).Nodup)
    (hsvc : oldSvc ≠ newSvc) :
    reloadHandler pre oldSvc none true pre newSvc = (201, none) := by
  have hch : listenerChanged (snapshotListeners pre) pre = false := by
    rw [snapshotListeners_eq]
    exact listenerChanged_eq_false fun k v hm => lookupL_eq_of_mem hkeys hm
  simp [reloadHandler, hch, hsvc]

/-- C4 witness: unchanged listeners with a service configuration change
yield 201. -/
theorem reload_changed_of_service_diff_witness :
    reloadHandler (α := Nat) [("dns0", ⟨"127.0.0.1", 53⟩)] 0 none true
      [("dns0", ⟨"127.0.0.1", 53⟩)] 1 = (201, none) :=
  reload_changed_of_service_diff [("dns0", ⟨"127.0.0.1", 53⟩)] 0 1
    (by decide) (by decide)

/-- C5: a reload-signal delivery failure returns 500 carrying the error
message, with no wait and no verification (the result does not depend on
the wait outcome or on any listener or service state); a delivered signal
whose completion does not arrive within the 5-second bound returns 500
with the timeout message, with no verification (the result does not
depend on the listener or service state). -/
theorem reload_signal_error_and_timeout {α : Type} [DecidableEq α]
    (e : String) (w : Bool) (pre post : ListenerMap) (oldSvc newSvc : α) :
    reloadHandler pre oldSvc (some e) w post newSvc = (500, some e)
    ∧ reloadHandler pre oldSvc none false post newSvc
        = (500, some "timeout waiting for ctrld reload") := by
  constructor <;> simp [reloadHandler]

/-- Enrichment never changes the IP of a client. -/
theorem enrichClient_ip (reg : Nat → String → String → Option Int)
    (c : Client) : (enrichClient reg c).ip = c.ip := by
  cases h : reg c.ip c.mac c.hostname <;> simp [enrichClient, h]

/-- Enrichment never changes the MAC of a client. -/
theorem enrichClient_mac (reg : Nat → String → String → Option Int)
    (c : Client) : (enrichClient reg c).mac = c.mac := by
  cases h : reg c.ip c.mac c.hostname <;> simp [enrichClient, h]

/-- Enrichment never changes the hostname of a client. -/
theorem enrichClient_hostname (reg : Nat → String → String → Option Int)
    (c : Client) : (enrichClient reg c).hostname = c.hostname := by
  cases h : reg c.ip c.mac c.hostname <;> simp [enrichClient, h]

/-- Enrichment always sets the include-query-count flag, whether or not
the registry lookup succeeds. -/
theorem enrichClient_includeQueryCount
    (reg : Nat → String → String → Option Int) (c : Client) :
    (enrichClient reg c).includeQueryCount = true := by
  cases h : reg c.ip c.mac c.hostname <;> simp [enrichClient, h]

/-- A failed registry lookup leaves everything but the flag untouched. -/
theorem enrichClient_of_lookup_none
    (reg : Nat → String → String → Option Int) (c : Client)
    (h : reg c.ip c.mac c.hostname = none) :
    enrichClient reg c = { c with includeQueryCount := true } := by
  simp [enrichClient, h]

/-- C6: for every client table and every order the daemon state provider
returns its entries, the client-listing response is that set of clients
(identified by IP, MAC and hostname) sorted ascending by IP: the response
is sorted by IP and its identity triples are a permutation of the input
ones, whatever the input order and whether or not metrics enrichment is
enabled. -/
theorem listClients_sorted (metricsQueryStats : Bool)
    (reg : Nat → String → String → Option Int) (cs : List Client) :
    List.Sorted ipLE (listClientsHandler metricsQueryStats reg cs)
    ∧ List.Perm
        ((listClientsHandler metricsQueryStats reg cs).map
          (fun c => (c.ip, c.mac, c.hostname)))
        (cs.map (fun c => (c.ip, c.mac, c.hostname))) := by
  have hsorted : List.Sorted ipLE (sortClients cs) :=
    List.sorted_insertionSort ipLE cs
  have hperm : List.Perm (sortClients cs) cs := List.perm_insertionSort ipLE cs
  cases metricsQueryStats with
  | false =>
    simp only [listClientsHandler, Bool.false_eq_true, if_false]
    exact ⟨hsorted, hperm.map _⟩
  | true =>
    simp only [listClientsHandler, if_true]
    constructor
    · show ((sortClients cs).map (enrichClient reg)).Pairwise ipLE
      refine List.pairwise_map.mpr (hsorted.imp ?_)
      intro a b hab
      show (enrichClient reg a).ip ≤ (enrichClient reg b).ip
      rw [enrichClient_ip, enrichClient_ip]
      exact hab
    · rw [List.map_map]
      have hkey : (fun c => (c.ip, c.mac, c.hostname)) ∘ enrichClient reg
          = fun c : Client => (c.ip, c.mac, c.hostname) := by
        funext c
        simp [Function.comp, enrichClient_ip, enrichClient_mac,
          enrichClient_hostname]
      rw [hkey]
      exact hperm.map _

/-- C10: when the global query-count flag is enabled, every client record
in the listing response has its include-query-count flag set, including
clients whose registry lookup failed; a failed lookup leaves only the
query count unpopulated (every other field unchanged) while the flag
remains set. -/
theorem listClients_query_count_flag
    (reg : Nat → String → String → Option Int) (cs : List Client) :
    (∀ c ∈ listClientsHandler true reg cs, c.includeQueryCount = true)
    ∧ ∀ c, reg c.ip c.mac c.hostname = none →
        enrichClient reg c = { c with includeQueryCount := true } := by
  constructor
  · intro c hc
    simp only [listClientsHandler, if_true] at hc
    rcases List.mem_map.mp hc with ⟨a, _, rfl⟩
    exact enrichClient_includeQueryCount reg a
  · exact fun c h => enrichClient_of_lookup_none reg c h

/-- C10 witness: with an always-failing registry and one client, the
listed record keeps its fields and carries the flag. -/
theorem listClients_query_count_flag_witness :
    (⟨5, "aa:bb", "host1", 3, true⟩ : Client).includeQueryCount = true
    ∧ enrichClient (fun _ _ _ => none) ⟨5, "aa:bb", "host1", 3, false⟩
        = ⟨5, "aa:bb", "host1", 3, true⟩ :=
  ⟨(listClients_query_count_flag (fun _ _ _ => none)
      [⟨5, "aa:bb", "host1", 3, false⟩]).1 ⟨5, "aa:bb", "host1", 3, true⟩
      (by decide),
    (listClients_query_count_flag (fun _ _ _ => none) []).2
      ⟨5, "aa:bb", "host1", 3, false⟩ rfl⟩

/-- C7: for both log handlers (the ship handler outside its throttle
window), a failed log read yields 400 carrying the error message and a
successful read of empty content yields the distinct no-content status
301, so the two outcomes always differ in status. -/
theorem logs_empty_error_distinct (read : Except String String)
    (now lastSent interval : Nat) (sendErr : Option String)
    (hthr : ¬ now - lastSent < interval) :
    (∀ e, read = .error e →
        viewLogsHandler read = (400, some e)
        ∧ sendLogsHandler now lastSent interval read sendErr
            = (400, some e, lastSent))
    ∧ (read = .ok "" →
        viewLogsHandler read = (301, none)
        ∧ sendLogsHandler now lastSent interval read sendErr
            = (301, none, lastSent))
    ∧ ∀ e, (viewLogsHandler (.ok "")).1 ≠ (viewLogsHandler (.error e)).1 := by
  have hE : ("" : String).isEmpty = true := by decide
  refine ⟨?_, ?_, ?_⟩
  · intro e he
    subst he
    constructor <;> simp [viewLogsHandler, sendLogsHandler, hthr]
  · intro he
    subst he
    constructor <;> simp [viewLogsHandler, sendLogsHandler, hthr, hE]
  · intro e
    simp [viewLogsHandler, hE]

/-- C7 witness: outside the throttle window, a read failure is reported
with 400 and its message by both handlers. -/
theorem logs_empty_error_distinct_witness :
    viewLogsHandler (.error "boom") = (400, some "boom")
    ∧ sendLogsHandler 100 0 10 (.error "boom") none
        = (400, some "boom", 0) :=
  (logs_empty_error_distinct (.error "boom") 100 0 10 none (by decide)).1
    "boom" rfl

/-- C8: a log-ship request within the throttle interval of the previous
attempt returns 503 with the timestamp untouched, independently of the
log content and of the transmission outcome (no read, no send); every
transmission attempt (success or failure) sets the throttle timestamp to
the request time; hence after a failed transmission an immediately
following request is rejected with 503. -/
theorem sendLogs_throttle_spec (now lastSent interval : Nat) :
    (∀ read sendErr, now - lastSent < interval →
        sendLogsHandler now lastSent interval read sendErr
          = (503, none, lastSent))
    ∧ (∀ d sendErr, ¬ now - lastSent < interval → d.isEmpty = false →
        (sendLogsHandler now lastSent interval (.ok d) sendErr).2.2 = now)
    ∧ (∀ d e, ¬ now - lastSent < interval → d.isEmpty = false →
        ∀ now' read' sendErr', now' - now < interval →
          sendLogsHandler now'
              (sendLogsHandler now lastSent interval (.ok d) (some e)).2.2
              interval read' sendErr'
            = (503, none, now)) := by
  refine ⟨?_, ?_, ?_⟩
  · intro read sendErr h
    simp [sendLogsHandler, h]
  · intro d sendErr h hd
    cases sendErr <;> simp [sendLogsHandler, h, hd]
  · intro d e h hd now' read' sendErr' h'
    have h2 : (sendLogsHandler now lastSent interval (.ok d) (some e)).2.2
        = now := by
      simp [sendLogsHandler, h, hd]
    rw [h2]
    simp [sendLogsHandler, h']

/-- C8 witness: after a failed transmission at time 100 (window 10), a
request at time 105 is throttled with 503. -/
theorem sendLogs_throttle_spec_witness :
    sendLogsHandler 105 (sendLogsHandler 100 0 10 (.ok "x") (some "err")).2.2
        10 (.ok "x") none = (503, none, 100) :=
  (sendLogs_throttle_spec 100 0 10).2.2 "x" "err" (by decide) (by decide) 105
    (.ok "x") none (by decide)

/-- C9 counterexample: a non-interactive interface request whose
DNS-binding-complete signal never arrives makes the handler block forever
on the bare channel receive, producing no response at all, so its wait is
not bounded by any timeout. -/
theorem iface_wait_unbounded_cex :
    ifaceHandler false false true "eth0" = none := rfl

/-- C9 (amended): the readiness handler returns within its 10-second
bound and the reload wait within its 5-second bound for every signal
arrival time; the interface handler has no timeout on its wait: a
non-interactive request whose DNS-binding-complete signal never arrives
blocks indefinitely, while requests whose signal arrives, and interactive
requests, do return. -/
theorem handler_wait_bounds :
    (∀ s, (startedHandler s).2 ≤ 10)
    ∧ (∀ s, (reloadWait s).2 ≤ 5)
    ∧ (∀ ok ifc, ifaceHandler false false ok ifc = none)
    ∧ (∀ ok ifc, (ifaceHandler false true ok ifc).isSome = true)
    ∧ (∀ a ok ifc, (ifaceHandler true a ok ifc).isSome = true) := by
  refine ⟨?_, ?_, ?_, ?_, ?_⟩
  · intro s
    cases s with
    | none => simp [startedHandler]
    | some t =>
      simp only [startedHandler]
      split
      · simp
        omega
      · simp
  · intro s
    cases s with
    | none => simp [reloadWait]
    | some t =>
      simp only [reloadWait]
      split
      · simp
        omega
      · simp
  · intro ok ifc
    rfl
  · intro ok ifc
    cases ok <;> rfl
  · intro a ok ifc
    rfl

end Ctrld
